import Mathlib

/-!
Shallow embedding of `src/podcast_processor/transcribe.py`
(`RemoteWhisperTranscriber`): the chunk-planning arithmetic of
`split_file`, its filesystem effect on the `<audio_path>_parts` scratch
directory, the single-attempt service call of `get_segments_for_chunk`,
and the chunk-concatenating loop of `transcribe`.

Modelling conventions:

* Python float arithmetic in `split_file` is modelled exactly over `ℕ`:
  `int((chunk_size_bytes / os.path.getsize(audio_path)) * duration)`
  becomes `chunk_size_bytes * duration / size_bytes` (floor division,
  equal to the Python expression under exact rational arithmetic), and
  `math.ceil(duration / chunk_duration)` becomes
  `(duration + chunk_duration - 1) / chunk_duration`.
* A Python statement that raises is modelled with `Except PyError` or
  `Option PyError`: `zeroDivisionError` exactly where Python divides by
  zero, `assertionError` where `assert segments is not None` fails,
  `fileNotFoundError` where `open(chunk_path)` fails.
* The scratch directory is the only filesystem state the code touches.
  It is modelled as `Option (Finset ℕ)`: `none` when the directory does
  not exist, `some s` when it exists and holds exactly the files
  `i.mp3` for `i ∈ s` (the code only ever creates files named by index).
* The remote whisper service is a response function from
  (chunk index, attempt number) to a response.  The code performs
  exactly one attempt (attempt number 0) per chunk and never retries.
* The OpenAI `TranscriptionSegment` timing fields are abstracted to
  integer milliseconds, following the units used everywhere in the code.
* `pydub` slice semantics: `audio[start_time:end_time]` clips the end
  bound to the audio length, hence the `min` in `plan_chunk`.
-/

/-- Exceptions the modelled Python code can raise.  The constructors
`invalidInputError` and `transcriptionServiceError` name error classes
that appear only in the specification's error taxonomy; the code under
`src/` defines no such classes and never raises them — they are included
so that claims mentioning them can be stated. -/
inductive PyError where
  | zeroDivisionError
  | assertionError
  | fileNotFoundError
  | apiConnectionError
  | invalidInputError
  | transcriptionServiceError
deriving DecidableEq, Repr

/-- A timed text segment as returned by the transcription service,
with the timing fields abstracted to integer milliseconds. -/
structure TranscriptionSegment where
  start_ms : ℕ
  end_ms : ℕ
  text : String
deriving DecidableEq, Repr, Inhabited

/-- One planned chunk: its index and the half-open global time range
`[start_ms, end_ms)` it covers. -/
structure Chunk where
  index : ℕ
  start_ms : ℕ
  end_ms : ℕ
deriving DecidableEq, Repr, Inhabited

/-- The two observable attributes of the source audio file:
`len(audio)` in milliseconds and `os.path.getsize(audio_path)`. -/
structure AudioFile where
  duration_ms : ℕ
  size_bytes : ℕ
deriving DecidableEq, Repr

/-- What one call to the remote service does: raise an exception, or
return a response whose `segments` field is `none` or a list. -/
inductive ServiceResponse where
  | raised : PyError → ServiceResponse
  | returned : Option (List TranscriptionSegment) → ServiceResponse
deriving DecidableEq, Repr

/-- The remote whisper service, as a function of the chunk index the
uploaded file was written for and the attempt number of the call. -/
abbrev WhisperService := ℕ → ℕ → ServiceResponse

/-- The filesystem state the code touches: the `<audio_path>_parts`
scratch directory (`none` = absent; `some s` = present, holding the
files `i.mp3` for `i ∈ s`). -/
structure FS where
  partsDir : Option (Finset ℕ)
deriving DecidableEq

instance {ε α : Type} [DecidableEq ε] [DecidableEq α] :
    DecidableEq (Except ε α) := fun a b =>
  match a, b with
  | .error x, .error y =>
    if h : x = y then .isTrue (by rw [h]) else .isFalse (by simp [h])
  | .error _, .ok _ => .isFalse (by simp)
  | .ok _, .error _ => .isFalse (by simp)
  | .ok x, .ok y =>
    if h : x = y then .isTrue (by rw [h]) else .isFalse (by simp [h])

/-- Default value of the `chunk_size_bytes` parameter of `split_file`:
`24 * 1024 * 1024`. -/
def default_chunk_size_bytes : ℕ := 24 * 1024 * 1024

/-- The target chunk duration computed by `split_file`:
`int((chunk_size_bytes / os.path.getsize(audio_path)) * duration_milliseconds)`,
under exact rational arithmetic.  Note the code applies no lower clamp. -/
def chunk_duration_of (chunk_size_bytes size_bytes duration_ms : ℕ) : ℕ :=
  chunk_size_bytes * duration_ms / size_bytes

/-- `num_chunks = math.ceil(duration_milliseconds / chunk_duration)`. -/
def num_chunks_of (duration_ms chunk_duration : ℕ) : ℕ :=
  (duration_ms + chunk_duration - 1) / chunk_duration

/-- The range covered by loop iteration `i` of `split_file`:
`start_time = i * chunk_duration`, `end_time = (i+1) * chunk_duration`,
with the end clipped to the audio length by `audio[start_time:end_time]`. -/
def plan_chunk (chunk_duration duration_ms i : ℕ) : Chunk :=
  ⟨i, i * chunk_duration, min ((i + 1) * chunk_duration) duration_ms⟩

/-- The chunk plan implicit in `split_file`'s loop bounds and slice
arithmetic (lines 40–51): the ranges iteration `i` would export for every
`i in range(num_chunks)`.  Raises `ZeroDivisionError` exactly where the
Python arithmetic does: `chunk_size_bytes / 0` when the file size is
zero, and `duration_milliseconds / 0` inside `math.ceil` when the
computed `chunk_duration` is zero. -/
def split_file_plan (chunk_size_bytes size_bytes duration_ms : ℕ) :
    Except PyError (List Chunk) :=
  if size_bytes = 0 then .error .zeroDivisionError
  else
    let cd := chunk_duration_of chunk_size_bytes size_bytes duration_ms
    if cd = 0 then .error .zeroDivisionError
    else .ok ((List.range (num_chunks_of duration_ms cd)).map
        (plan_chunk cd duration_ms))

/-- `if not os.path.exists(audio_path + "_parts"): os.makedirs(...)` —
creates the scratch directory when absent, otherwise leaves it as is. -/
def ensure_dir (fs : FS) : FS :=
  match fs.partsDir with
  | none => ⟨some ∅⟩
  | some s => ⟨some s⟩

/-- The writes `split_file`'s loop actually performs: iteration 0 exports
`0.mp3` and then hits `break  # TODO REMOVE ME`, so at most the single
file `0.mp3` is written (none when the plan is empty). -/
def write_chunk_zero (fs : FS) (cs : List Chunk) : FS :=
  if cs.isEmpty then fs else ⟨fs.partsDir.map (insert 0)⟩

/-- `split_file(audio_path)`: ensure the scratch directory exists, run
the plan arithmetic (propagating its exception), then export chunk 0 and
break.  Returns the filesystem state paired with the raised exception,
if any. -/
def split_file (audio : AudioFile) (chunk_size_bytes : ℕ) (fs : FS) :
    FS × Option PyError :=
  let fs1 := ensure_dir fs
  match split_file_plan chunk_size_bytes audio.size_bytes audio.duration_ms with
  | .error e => (fs1, some e)
  | .ok cs => (write_chunk_zero fs1 cs, none)

/-- `get_segments_for_chunk(f"{audio_path}_parts/{i}.mp3")`: `open`
raises `FileNotFoundError` when the file is absent; otherwise a single
service call (attempt number 0, no retry) is made, a raised exception
propagates, and `assert segments is not None` turns an absent segments
field into `AssertionError`. -/
def get_segments_for_chunk (svc : WhisperService) (dir : Finset ℕ) (i : ℕ) :
    Except PyError (List TranscriptionSegment) :=
  if i ∈ dir then
    match svc i 0 with
    | .raised e => .error e
    | .returned none => .error .assertionError
    | .returned (some segs) => .ok segs
  else .error .fileNotFoundError

/-- The loop of `transcribe`: for `i in range(0, n, 1)` fetch the
segments of `i.mp3` and `all_segments.extend(segments)`; the first
exception aborts the loop.  No timestamp is shifted. -/
def loop_chunks (svc : WhisperService) (dir : Finset ℕ) :
    ℕ → Except PyError (List TranscriptionSegment)
  | 0 => .ok []
  | n + 1 =>
    match loop_chunks svc dir n with
    | .error e => .error e
    | .ok pre =>
      match get_segments_for_chunk svc dir n with
      | .error e => .error e
      | .ok segs => .ok (pre ++ segs)

/-- `len(os.listdir(f"{audio_path}_parts"))`. -/
def listdir_card (fs : FS) : ℕ :=
  match fs.partsDir with
  | none => 0
  | some s => s.card

/-- `transcribe(audio_path)`: run `split_file`, loop over as many indexed
files as the directory listing has entries, concatenating each chunk's
segments unshifted, and remove the scratch directory — the removal
(`shutil.rmtree`) is only reached on the success path; any exception
propagates immediately, leaving the directory in place. -/
def transcribe (audio : AudioFile) (chunk_size_bytes : ℕ)
    (svc : WhisperService) (fs : FS) :
    FS × Except PyError (List TranscriptionSegment) :=
  match split_file audio chunk_size_bytes fs with
  | (fs1, some e) => (fs1, .error e)
  | (fs1, none) =>
    match loop_chunks svc (fs1.partsDir.getD ∅) (listdir_card fs1) with
    | .error e => (fs1, .error e)
    | .ok segs => (⟨none⟩, .ok segs)

/-! ### Concrete example inputs used by the claims -/

/-- The spec's end-to-end example audio: 600000 ms, 24 MiB. -/
def audio_example : AudioFile := ⟨600000, 25165824⟩

/-- The spec's end-to-end example byte ceiling: 8 MiB. -/
def byte_ceiling_example : ℕ := 8388608

/-- A run starting with no scratch directory. -/
def fresh_fs : FS := ⟨none⟩

/-- The spec's example service: chunk 0 ↦ `[{0,5000,"a"}]`,
chunk 1 ↦ `[{0,4000,"b"}]`, chunk 2 ↦ `[{0,3000,"c"}]`. -/
def svc_abc : WhisperService := fun i _ =>
  if i = 0 then .returned (some [⟨0, 5000, "a"⟩])
  else if i = 1 then .returned (some [⟨0, 4000, "b"⟩])
  else .returned (some [⟨0, 3000, "c"⟩])

/-- A service whose every call raises a transient connection error. -/
def svc_fail : WhisperService := fun _ _ => .raised .apiConnectionError

/-- A service that succeeds on every call with one fixed segment. -/
def svc_ok : WhisperService := fun _ _ => .returned (some [⟨0, 5000, "a"⟩])

/-- A successful service response whose `segments` field is absent. -/
def svc_none : WhisperService := fun _ _ => .returned none

/-- A transient service: attempts 0 and 1 raise a connection error,
attempt 2 onwards succeeds. -/
def svc_flaky : WhisperService := fun _ attempt =>
  if attempt < 2 then .raised .apiConnectionError
  else .returned (some [⟨0, 5000, "a"⟩])

/-- A small valid audio file: 1000 ms, 1000 bytes. -/
def audio_small : AudioFile := ⟨1000, 1000⟩

/-! ### Helper lemmas about the planner arithmetic -/

/-- The ceiling division `(a + b - 1) / b` multiplied back by `b` covers
`a`. -/
lemma ceil_div_mul_ge (a b : ℕ) (hb : 0 < b) : a ≤ (a + b - 1) / b * b := by
  have key : (a + b - 1) / b * b + (a + b - 1) % b = a + b - 1 :=
    Nat.div_add_mod' (a + b - 1) b
  have hlt : (a + b - 1) % b < b := Nat.mod_lt _ hb
  generalize hm : (a + b - 1) / b * b = m at key
  generalize hr : (a + b - 1) % b = r at key hlt
  omega

/-- One stride less than the ceiling division falls short of `a`. -/
lemma ceil_div_pred_mul_lt (a b : ℕ) (ha : 0 < a) (hb : 0 < b) :
    ((a + b - 1) / b - 1) * b < a := by
  have key : (a + b - 1) / b * b + (a + b - 1) % b = a + b - 1 :=
    Nat.div_add_mod' (a + b - 1) b
  have hlt : (a + b - 1) % b < b := Nat.mod_lt _ hb
  have hsub : ((a + b - 1) / b - 1) * b = (a + b - 1) / b * b - b := by
    rw [Nat.sub_mul, one_mul]
  rw [hsub]
  generalize hm : (a + b - 1) / b * b = m at key
  generalize hr : (a + b - 1) % b = r at key hlt
  omega

/-- The number of chunks is positive whenever the duration and the
target chunk duration are. -/
lemma num_chunks_pos (duration_ms chunk_duration : ℕ)
    (hd : 0 < duration_ms) (hc : 0 < chunk_duration) :
    0 < num_chunks_of duration_ms chunk_duration :=
  Nat.div_pos (by omega) hc

/-- The plan `num_chunks_of` strides cover the duration. -/
lemma num_chunks_mul_ge (duration_ms chunk_duration : ℕ)
    (hc : 0 < chunk_duration) :
    duration_ms ≤ num_chunks_of duration_ms chunk_duration * chunk_duration :=
  ceil_div_mul_ge duration_ms chunk_duration hc

/-- All strides but the last end strictly inside the duration. -/
lemma num_chunks_pred_mul_lt (duration_ms chunk_duration : ℕ)
    (hd : 0 < duration_ms) (hc : 0 < chunk_duration) :
    (num_chunks_of duration_ms chunk_duration - 1) * chunk_duration <
      duration_ms :=
  ceil_div_pred_mul_lt duration_ms chunk_duration hd hc

/-- When the arithmetic raises nothing, `split_file_plan` returns the
uniform-stride plan. -/
lemma split_file_plan_eq (csb sz dur : ℕ) (hsz : sz ≠ 0)
    (hcd : chunk_duration_of csb sz dur ≠ 0) :
    split_file_plan csb sz dur =
      .ok ((List.range
          (num_chunks_of dur (chunk_duration_of csb sz dur))).map
        (plan_chunk (chunk_duration_of csb sz dur) dur)) := by
  simp [split_file_plan, hsz, hcd]

/-! ### Claim theorems -/

/-- C1: on the spec's 3-chunk example the code does not produce the
claimed shifted merge.  On a fresh run it transcribes only chunk 0 (the
`break` stops extraction) and returns `[{0,5000,"a"}]`; even when all
three chunk files are present in the scratch directory it appends the
chunk-local segments without adding any chunk offset, returning
`[{0,5000,"a"},{0,4000,"b"},{0,3000,"c"}]`, not the claimed
`[{0,5000,"a"},{200000,204000,"b"},{400000,403000,"c"}]`. -/
theorem C1_no_shift_eval :
    (transcribe audio_example byte_ceiling_example svc_abc fresh_fs).2 =
      .ok [⟨0, 5000, "a"⟩] ∧
    (transcribe audio_example byte_ceiling_example svc_abc
        ⟨some {0, 1, 2}⟩).2 =
      .ok [⟨0, 5000, "a"⟩, ⟨0, 4000, "b"⟩, ⟨0, 3000, "c"⟩] ∧
    decide ((transcribe audio_example byte_ceiling_example svc_abc
        ⟨some {0, 1, 2}⟩).2 =
      .ok [⟨0, 5000, "a"⟩, ⟨200000, 204000, "b"⟩,
           ⟨400000, 403000, "c"⟩]) = false := by
  refine ⟨by decide, by decide, by decide⟩

/-- C2: the plan for the spec's example has 3 chunks, but `split_file`
materializes only the single file `0.mp3` — the `break` after the first
iteration stops extraction, so the directory ends up holding exactly one
file, not the N planned ones. -/
theorem C2_one_chunk_only_eval :
    split_file_plan byte_ceiling_example audio_example.size_bytes
        audio_example.duration_ms =
      .ok [⟨0, 0, 200000⟩, ⟨1, 200000, 400000⟩, ⟨2, 400000, 600000⟩] ∧
    (split_file audio_example byte_ceiling_example fresh_fs).1.partsDir =
      some {0} := by
  refine ⟨by decide, by decide⟩

/-- C3 counterexample: when the service call for chunk 0 raises a
transient error, `transcribe` propagates the error and the scratch
directory still exists (it holds `0.mp3`) — refuting the claim that on
every failure exit path the directory is removed before returning. -/
theorem C3_counterexample :
    (transcribe audio_example byte_ceiling_example svc_fail fresh_fs).2 =
      .error .apiConnectionError ∧
    (transcribe audio_example byte_ceiling_example svc_fail
        fresh_fs).1.partsDir = some {0} := by
  refine ⟨by decide, by decide⟩

/-- `split_file` always leaves the scratch directory in existence: it is
created (if absent) before any failure point. -/
lemma split_file_dir_exists (audio : AudioFile) (csb : ℕ) (fs : FS) :
    ((split_file audio csb fs).1).partsDir.isSome := by
  have h1 : (ensure_dir fs).partsDir.isSome := by
    unfold ensure_dir
    cases fs.partsDir <;> simp
  unfold split_file
  cases split_file_plan csb audio.size_bytes audio.duration_ms with
  | error e => simpa using h1
  | ok cs =>
    simp only [write_chunk_zero]
    split
    · simpa using h1
    · cases h : (ensure_dir fs).partsDir with
      | none => rw [h] at h1; simp at h1
      | some s => simp [h]

/-- C3 amended: the scratch directory is removed only on the success
path.  When `transcribe` returns a transcript the directory is gone;
when it returns any error — extraction arithmetic, a missing chunk
file, or a failed or malformed service response — the directory still
exists when the error reaches the caller. -/
theorem C3_amended (audio : AudioFile) (csb : ℕ) (svc : WhisperService)
    (fs : FS) :
    (∀ segs, (transcribe audio csb svc fs).2 = .ok segs →
      (transcribe audio csb svc fs).1.partsDir = none) ∧
    ∀ e, (transcribe audio csb svc fs).2 = .error e →
      (transcribe audio csb svc fs).1.partsDir ≠ none := by
  have hsome := split_file_dir_exists audio csb fs
  unfold transcribe
  rcases hsf : split_file audio csb fs with ⟨fs1, e?⟩
  rw [hsf] at hsome
  simp only at hsome
  cases e? with
  | some e =>
    constructor
    · intro segs h
      simp at h
    · intro e2 h2
      simp only
      intro hnone
      rw [hnone] at hsome
      simp at hsome
  | none =>
    cases hl : loop_chunks svc (fs1.partsDir.getD ∅) (listdir_card fs1) with
    | error e =>
      constructor
      · intro segs h
        simp [hl] at h
      · intro e2 h2
        simp only [hl]
        intro hnone
        rw [hnone] at hsome
        simp at hsome
    | ok segs =>
      constructor
      · intro segs2 h
        simp [hl]
      · intro e2 h2
        simp [hl] at h2

/-- C3 amended witness: a concrete run that succeeds (singleton plan,
service always answers) ends with the scratch directory removed, and a
concrete run whose service raises ends with the directory still
present. -/
theorem C3_amended_witness :
    ((transcribe audio_small default_chunk_size_bytes svc_ok fresh_fs).2 =
        .ok [⟨0, 5000, "a"⟩] ∧
      (transcribe audio_small default_chunk_size_bytes svc_ok
          fresh_fs).1.partsDir = none) ∧
    ((transcribe audio_small default_chunk_size_bytes svc_fail
          fresh_fs).2 = .error .apiConnectionError ∧
      (transcribe audio_small default_chunk_size_bytes svc_fail
          fresh_fs).1.partsDir ≠ none) :=
  ⟨⟨by decide,
    (C3_amended audio_small default_chunk_size_bytes svc_ok fresh_fs).1
      [⟨0, 5000, "a"⟩] (by decide)⟩,
   ⟨by decide,
    (C3_amended audio_small default_chunk_size_bytes svc_fail fresh_fs).2
      .apiConnectionError (by decide)⟩⟩

/-- C4 counterexample: at the valid input `byte_ceiling = 1`,
`total_bytes = 1000000`, `duration_ms = 1000` the planner does not
produce any chunk list at all — the unclamped target duration is 0 and
the chunk-count division raises `ZeroDivisionError` — so the claimed
plan properties fail to hold for all valid inputs. -/
theorem C4_counterexample :
    split_file_plan 1 1000000 1000 = .error .zeroDivisionError ∧
    (split_file_plan 1 1000000 1000).isOk = false := by
  refine ⟨by decide, by decide⟩

/-- Indexing into the uniform-stride plan list. -/
lemma plan_list_get (cd dur n i : ℕ) (hi : i < n) :
    ((List.range n).map (plan_chunk cd dur))[i]! = plan_chunk cd dur i := by
  have hlen : i < ((List.range n).map (plan_chunk cd dur)).length := by
    simpa using hi
  rw [getElem!_pos ((List.range n).map (plan_chunk cd dur)) i hlen]
  simp

/-- C4 amended: restricted to valid inputs whose unclamped target chunk
duration is positive (`total_bytes ≤ byte_ceiling * duration_ms`), the
plan exists and its chunks are non-empty, indexed in order, start at 0,
are contiguous (`end_ms[i] = start_ms[i+1]`) and disjoint with
non-decreasing `start_ms`, the last `end_ms` equals `duration_ms`, and
every chunk's estimated byte size is at most the ceiling
(`(end_ms - start_ms) * total_bytes ≤ byte_ceiling * duration_ms`,
the cross-multiplied form of `length_ms * bytes_per_ms ≤ ceiling`).
Outside this restriction the planner raises `ZeroDivisionError` instead
of producing the claimed minimum 1-ms chunk (see the counterexample). -/
theorem C4_amended (csb sz dur : ℕ) (hsz : 0 < sz) (hdur : 0 < dur)
    (hfit : sz ≤ csb * dur) :
    ∃ cs : List Chunk,
      split_file_plan csb sz dur = .ok cs ∧
      0 < cs.length ∧
      (∀ i, i < cs.length → (cs[i]!).index = i) ∧
      (cs[0]!).start_ms = 0 ∧
      (∀ i, i < cs.length → (cs[i]!).start_ms < (cs[i]!).end_ms) ∧
      (∀ i, i + 1 < cs.length → (cs[i]!).end_ms = (cs[i+1]!).start_ms) ∧
      (∀ i j, i ≤ j → j < cs.length →
        (cs[i]!).start_ms ≤ (cs[j]!).start_ms) ∧
      (cs[cs.length - 1]!).end_ms = dur ∧
      (∀ i, i < cs.length →
        ((cs[i]!).end_ms - (cs[i]!).start_ms) * sz ≤ csb * dur) := by
  set cd := chunk_duration_of csb sz dur with hcddef
  have hcdpos : 0 < cd := Nat.div_pos hfit hsz
  set n := num_chunks_of dur cd with hndef
  have hn : 0 < n := num_chunks_pos dur cd hdur hcdpos
  have hfull : dur ≤ n * cd := num_chunks_mul_ge dur cd hcdpos
  have hpredlt : (n - 1) * cd < dur := num_chunks_pred_mul_lt dur cd hdur hcdpos
  have hstride : ∀ i, i < n → i * cd < dur := by
    intro i hi
    calc i * cd ≤ (n - 1) * cd := Nat.mul_le_mul_right cd (by omega)
      _ < dur := hpredlt
  refine ⟨(List.range n).map (plan_chunk cd dur),
    split_file_plan_eq csb sz dur hsz.ne' hcdpos.ne', ?_⟩
  have hlen : ((List.range n).map (plan_chunk cd dur)).length = n := by simp
  rw [hlen]
  refine ⟨hn, ?_, ?_, ?_, ?_, ?_, ?_, ?_⟩
  · intro i hi
    rw [plan_list_get cd dur n i hi]
    rfl
  · rw [plan_list_get cd dur n 0 hn]
    simp [plan_chunk]
  · intro i hi
    rw [plan_list_get cd dur n i hi]
    unfold plan_chunk
    exact lt_min (by nlinarith) (hstride i hi)
  · intro i hi
    rw [plan_list_get cd dur n i (by omega), plan_list_get cd dur n (i + 1) hi]
    unfold plan_chunk
    have hle : (i + 1) * cd ≤ dur := by
      calc (i + 1) * cd ≤ (n - 1) * cd := Nat.mul_le_mul_right cd (by omega)
        _ ≤ dur := le_of_lt hpredlt
    simp [Nat.min_eq_left hle]
  · intro i j hij hj
    rw [plan_list_get cd dur n i (by omega), plan_list_get cd dur n j hj]
    exact Nat.mul_le_mul_right cd hij
  · rw [plan_list_get cd dur n (n - 1) (by omega)]
    unfold plan_chunk
    have hpred : n - 1 + 1 = n := by omega
    rw [hpred]
    simp [Nat.min_eq_right hfull]
  · intro i hi
    rw [plan_list_get cd dur n i hi]
    unfold plan_chunk
    have hwidth : min ((i + 1) * cd) dur - i * cd ≤ cd := by
      have h1 : min ((i + 1) * cd) dur ≤ (i + 1) * cd :=
        min_le_left _ _
      have h2 : (i + 1) * cd = i * cd + cd := by ring
      omega
    calc (min ((i + 1) * cd) dur - i * cd) * sz ≤ cd * sz :=
        Nat.mul_le_mul_right sz hwidth
      _ ≤ csb * dur := Nat.div_mul_le_self (csb * dur) sz

/-- C4 amended witness: at the spec's example input (600000 ms,
24 MiB file, 8 MiB ceiling) the hypotheses hold, so the plan exists with
all the listed properties. -/
theorem C4_amended_witness :
    ((0 : ℕ) < 25165824 ∧ (0 : ℕ) < 600000 ∧
      (25165824 : ℕ) ≤ 8388608 * 600000) ∧
    ∃ cs : List Chunk,
      split_file_plan 8388608 25165824 600000 = .ok cs ∧
      0 < cs.length ∧
      (∀ i, i < cs.length → (cs[i]!).index = i) ∧
      (cs[0]!).start_ms = 0 ∧
      (∀ i, i < cs.length → (cs[i]!).start_ms < (cs[i]!).end_ms) ∧
      (∀ i, i + 1 < cs.length → (cs[i]!).end_ms = (cs[i+1]!).start_ms) ∧
      (∀ i j, i ≤ j → j < cs.length →
        (cs[i]!).start_ms ≤ (cs[j]!).start_ms) ∧
      (cs[cs.length - 1]!).end_ms = 600000 ∧
      (∀ i, i < cs.length →
        ((cs[i]!).end_ms - (cs[i]!).start_ms) * 25165824 ≤
          8388608 * 600000) :=
  ⟨⟨by decide, by decide, by decide⟩,
    C4_amended 8388608 25165824 600000 (by decide) (by decide) (by decide)⟩

/-- C5: at `byte_ceiling = 100`, `total_bytes = 1000000`,
`duration_ms = 1000` the target chunk duration computes to
`int(0.1) = 0` — the code applies no clamp to 1 — and the subsequent
`math.ceil(duration_ms / chunk_duration)` divides by zero. -/
theorem C5_no_clamp_eval :
    chunk_duration_of 100 1000000 1000 = 0 ∧
    split_file_plan 100 1000000 1000 = .error .zeroDivisionError := by
  refine ⟨by decide, by decide⟩

/-- C6: with `total_bytes = 0` the expression
`chunk_size_bytes / os.path.getsize(audio_path)` raises
`ZeroDivisionError`, and with `duration_ms = 0` the computed chunk
duration is 0 and `math.ceil(duration_ms / 0)` raises
`ZeroDivisionError` — in both cases an unclassified arithmetic error,
not the `InvalidInputError` the claim names. -/
theorem C6_zero_division_eval :
    split_file_plan default_chunk_size_bytes 0 600000 =
      .error .zeroDivisionError ∧
    split_file_plan default_chunk_size_bytes 1000000 0 =
      .error .zeroDivisionError ∧
    decide (PyError.zeroDivisionError = PyError.invalidInputError) =
      false := by
  refine ⟨by decide, by decide, by decide⟩

/-- C7: the client makes exactly one attempt per chunk.  Against a
service that raises a transient connection error on attempts 0 and 1 and
succeeds from attempt 2 on (so a `max_retries = 3` policy would
succeed), the pipeline fails with the transient error instead of
retrying. -/
theorem C7_no_retry_eval :
    svc_flaky 0 2 = .returned (some [⟨0, 5000, "a"⟩]) ∧
    (transcribe audio_small default_chunk_size_bytes svc_flaky
        fresh_fs).2 = .error .apiConnectionError := by
  refine ⟨by decide, by decide⟩

/-- C9: when the whole file already fits under the byte ceiling
(`0 < total_bytes ≤ byte_ceiling`) and the duration is positive, the
computed target chunk duration is at least the whole duration, so the
plan is the single chunk `[0, duration_ms)` covering the whole file. -/
theorem C9_single_chunk (csb sz dur : ℕ) (hsz : 0 < sz) (hle : sz ≤ csb)
    (hdur : 0 < dur) :
    dur ≤ chunk_duration_of csb sz dur ∧
    split_file_plan csb sz dur = .ok [⟨0, 0, dur⟩] := by
  have hcd : dur ≤ chunk_duration_of csb sz dur := by
    have h1 : sz * dur ≤ csb * dur := Nat.mul_le_mul_right dur hle
    have h2 : sz * dur / sz ≤ csb * dur / sz := Nat.div_le_div_right h1
    rwa [Nat.mul_div_cancel_left dur hsz] at h2
  have hcdpos : 0 < chunk_duration_of csb sz dur := lt_of_lt_of_le hdur hcd
  refine ⟨hcd, ?_⟩
  have hn : num_chunks_of dur (chunk_duration_of csb sz dur) = 1 := by
    unfold num_chunks_of
    exact Nat.div_eq_of_lt_le (by omega) (by omega)
  rw [split_file_plan_eq csb sz dur hsz.ne' hcdpos.ne', hn]
  have h1 : List.range 1 = [0] := rfl
  simp [h1, plan_chunk, Nat.min_eq_right hcd]

/-- C9 witness: at `byte_ceiling = 10`, `total_bytes = 5`,
`duration_ms = 7` the hypotheses hold and the plan is the single chunk
covering the whole 7 ms. -/
theorem C9_single_chunk_witness :
    ((0 : ℕ) < 5 ∧ (5 : ℕ) ≤ 10 ∧ (0 : ℕ) < 7) ∧
    (7 ≤ chunk_duration_of 10 5 7 ∧
      split_file_plan 10 5 7 = .ok [⟨0, 0, 7⟩]) :=
  ⟨⟨by decide, by decide, by decide⟩,
    C9_single_chunk 10 5 7 (by decide) (by decide) (by decide)⟩

/-- C8 amended: a successful service response with an absent `segments`
field makes the client raise `AssertionError` (not
`TranscriptionServiceError`), and the client does not retry — its result
depends only on the attempt-0 response, so any service agreeing on
attempt 0 yields the same outcome. -/
theorem C8_amended (svc : WhisperService) (dir : Finset ℕ) (i : ℕ)
    (hin : i ∈ dir) (hnone : svc i 0 = .returned none) :
    get_segments_for_chunk svc dir i = .error .assertionError ∧
    ∀ svc2 : WhisperService, svc2 i 0 = svc i 0 →
      get_segments_for_chunk svc2 dir i =
        get_segments_for_chunk svc dir i := by
  constructor
  · unfold get_segments_for_chunk
    rw [if_pos hin, hnone]
  · intro svc2 hagree
    unfold get_segments_for_chunk
    rw [if_pos hin, if_pos hin, hagree]

/-- C8 amended witness: index 1 is present in the directory `{0, 1}`,
the service returns a successful response with no segments, and the
client raises `AssertionError`. -/
theorem C8_amended_witness :
    (1 ∈ ({0, 1} : Finset ℕ)) ∧
    svc_none 1 0 = .returned none ∧
    get_segments_for_chunk svc_none {0, 1} 1 = .error .assertionError :=
  ⟨by decide, rfl, (C8_amended svc_none {0, 1} 1 (by decide) rfl).1⟩

/-- When the directory holds the files `0..k-1` and the service answers
every chunk below `k`, the transcription loop over the first `m ≤ k`
files succeeds with the concatenation of their segments, in index
order. -/
lemma loop_chunks_total (svc : WhisperService) (k : ℕ)
    (segs : ℕ → List TranscriptionSegment)
    (hsvc : ∀ i, i < k → svc i 0 = .returned (some (segs i))) :
    ∀ m, m ≤ k → loop_chunks svc (Finset.range k) m =
      .ok (((List.range m).map segs).flatten) := by
  intro m
  induction m with
  | zero => intro _; simp [loop_chunks]
  | succ m ih =>
    intro hm
    have hrec := ih (by omega)
    have hmem : m ∈ Finset.range k := Finset.mem_range.mpr (by omega)
    have hget : get_segments_for_chunk svc (Finset.range k) m =
        .ok (segs m) := by
      unfold get_segments_for_chunk
      rw [if_pos hmem, hsvc m (by omega)]
    unfold loop_chunks
    rw [hrec, hget]
    simp [List.range_succ]

/-- C10: a pre-existing scratch directory holding the files `0..k-1` is
reused without being cleared (`split_file` leaves exactly the same file
set in place), and a run over it transcribes as many chunk files as the
directory listing has entries — all `k` leftover files contribute their
segments to the returned transcript, in index order. -/
theorem C10_stale_dir_reused (audio : AudioFile) (csb k : ℕ)
    (svc : WhisperService) (segs : ℕ → List TranscriptionSegment)
    (hk : 0 < k) (hsz : 0 < audio.size_bytes)
    (hcd : 0 < chunk_duration_of csb audio.size_bytes audio.duration_ms)
    (hsvc : ∀ i, i < k → svc i 0 = .returned (some (segs i))) :
    (split_file audio csb ⟨some (Finset.range k)⟩).1 =
      ⟨some (Finset.range k)⟩ ∧
    transcribe audio csb svc ⟨some (Finset.range k)⟩ =
      (⟨none⟩, .ok (((List.range k).map segs).flatten)) := by
  have hdur : 0 < audio.duration_ms := by
    rcases Nat.eq_zero_or_pos audio.duration_ms with h0 | h0
    · rw [h0] at hcd
      simp [chunk_duration_of] at hcd
    · exact h0
  have hplan := split_file_plan_eq csb audio.size_bytes audio.duration_ms
    hsz.ne' hcd.ne'
  have hn : 0 < num_chunks_of audio.duration_ms
      (chunk_duration_of csb audio.size_bytes audio.duration_ms) :=
    num_chunks_pos _ _ hdur hcd
  have hne : ¬((List.range (num_chunks_of audio.duration_ms
      (chunk_duration_of csb audio.size_bytes
        audio.duration_ms))).map (plan_chunk
      (chunk_duration_of csb audio.size_bytes audio.duration_ms)
      audio.duration_ms)).isEmpty := by
    simp [List.isEmpty_iff, List.map_eq_nil_iff, List.range_eq_nil]
    omega
  have hins : insert 0 (Finset.range k) = Finset.range k :=
    Finset.insert_eq_self.mpr (Finset.mem_range.mpr hk)
  have hsplit : split_file audio csb ⟨some (Finset.range k)⟩ =
      (⟨some (Finset.range k)⟩, none) := by
    unfold split_file ensure_dir
    rw [hplan]
    simp only [write_chunk_zero, hne, if_neg, ite_false]
    simp [hins]
  refine ⟨by rw [hsplit], ?_⟩
  have hcard : listdir_card ⟨some (Finset.range k)⟩ = k := by
    simp [listdir_card]
  have hloop := loop_chunks_total svc k segs hsvc k (le_refl k)
  unfold transcribe
  rw [hsplit]
  simp only [Option.getD_some, hcard, hloop]

/-- C10 witness: a directory left holding `0.mp3`, `1.mp3`, `2.mp3` is
reused by a run on a small valid audio file whose service answers every
chunk, and all three files' segments appear in the output in order. -/
theorem C10_stale_dir_reused_witness :
    ((0 : ℕ) < 3 ∧ 0 < audio_small.size_bytes ∧
      0 < chunk_duration_of default_chunk_size_bytes
        audio_small.size_bytes audio_small.duration_ms) ∧
    ((split_file audio_small default_chunk_size_bytes
        ⟨some (Finset.range 3)⟩).1 = ⟨some (Finset.range 3)⟩ ∧
      transcribe audio_small default_chunk_size_bytes svc_ok
        ⟨some (Finset.range 3)⟩ =
        (⟨none⟩, .ok (((List.range 3).map
          (fun _ => [⟨0, 5000, "a"⟩])).flatten))) :=
  ⟨⟨by decide, by decide, by decide⟩,
    C10_stale_dir_reused audio_small default_chunk_size_bytes 3 svc_ok
      (fun _ => [⟨0, 5000, "a"⟩]) (by decide) (by decide) (by decide)
      (fun _ _ => rfl)⟩

/-- C8 counterexample: a successful service response with an absent
`segments` field makes `assert segments is not None` raise
`AssertionError`, not the `TranscriptionServiceError` the claim names. -/
theorem C8_counterexample :
    get_segments_for_chunk svc_none {0} 0 = .error .assertionError ∧
    decide (get_segments_for_chunk svc_none {0} 0 =
      .error .transcriptionServiceError) = false := by
  refine ⟨by decide, by decide⟩
